import Mathlib

/-!
Shallow embedding of the natural-language-to-Cypher assistant: the database
connection wrapper (`db_connector.py`), the schema builder and LLM connector
(`cypher_chain.py`, with `graph_chain.py` sharing the identical `ask` body),
and the Flask `/ask` route (`app.py`).  The external language-model chain
(`GraphCypherQAChain`) is a third-party dependency not under src/; where a
claim depends on its behaviour it is modelled from the specification, and the
corresponding definitions say so in their doc comments.

Python exceptions are modelled with `Except`: a `.error` escaping a function
is an exception propagating out of it, and the message is the `str(e)` text
observed by the handlers in the source.
-/

namespace NeoApp

/-- A Python exception, reduced to its `str(e)` message, which is all that the
handlers in the source observe. -/
abbrev PyErr := String

/-- JSON-like Python values: what flows through the chain result dictionary,
the fetched database rows, and the HTTP request and response bodies. -/
inductive PyValue where
  | vnone : PyValue
  | vbool : Bool → PyValue
  | vint : Int → PyValue
  | vstr : String → PyValue
  | vlist : List PyValue → PyValue
  | vdict : List (String × PyValue) → PyValue

/-- A Python dictionary with string keys, as an association list. -/
abbrev PyDict := List (String × PyValue)

/-- `d.get(k)`: `None`-free lookup, `none` when the key is absent. -/
def PyDict.get? (d : PyDict) (k : String) : Option PyValue :=
  (List.find? (fun kv => kv.1 == k) d).map (fun kv => kv.2)

/-- `d.get(k, dflt)`: lookup with an explicit default. -/
def PyDict.getD (d : PyDict) (k : String) (dflt : PyValue) : PyValue :=
  (PyDict.get? d k).getD dflt

/-- Python truthiness, as tested by `if not question` in the route handler. -/
def PyValue.isTruthy : PyValue → Bool
  | PyValue.vnone => false
  | PyValue.vbool b => b
  | PyValue.vint n => n != 0
  | PyValue.vstr s => !s.isEmpty
  | PyValue.vlist l => !l.isEmpty
  | PyValue.vdict d => !d.isEmpty

/-- The subscription `v[0]`, with the exception each non-indexable Python value
raises (`str` of the `IndexError`, `KeyError` or `TypeError`). -/
def PyValue.subscriptZero : PyValue → Except PyErr PyValue
  | PyValue.vlist [] => Except.error "list index out of range"
  | PyValue.vlist (x :: _) => Except.ok x
  | PyValue.vstr s =>
      match s.data with
      | [] => Except.error "string index out of range"
      | c :: _ => Except.ok (PyValue.vstr (String.mk [c]))
  | PyValue.vdict _ => Except.error "0"
  | PyValue.vint _ => Except.error "\x27int\x27 object is not subscriptable"
  | PyValue.vbool _ => Except.error "\x27bool\x27 object is not subscriptable"
  | PyValue.vnone => Except.error "\x27NoneType\x27 object is not subscriptable"

/-- The method call `v.get(k, dflt)`: dictionary lookup with default, or the
`AttributeError` any other Python value raises. -/
def PyValue.getMethod : PyValue → String → PyValue → Except PyErr PyValue
  | PyValue.vdict d, k, dflt => Except.ok (PyDict.getD d k dflt)
  | PyValue.vlist _, _, _ => Except.error "\x27list\x27 object has no attribute \x27get\x27"
  | PyValue.vstr _, _, _ => Except.error "\x27str\x27 object has no attribute \x27get\x27"
  | PyValue.vint _, _, _ => Except.error "\x27int\x27 object has no attribute \x27get\x27"
  | PyValue.vbool _, _, _ => Except.error "\x27bool\x27 object has no attribute \x27get\x27"
  | PyValue.vnone, _, _ => Except.error "\x27NoneType\x27 object has no attribute \x27get\x27"

/-! ## db_connector.py -/

/-- The neo4j driver session behaviour: running a query with parameters either
returns the row dictionaries (`[record.data() for record in result]`) or
raises a database-side exception. -/
abbrev Neo4jDriver := String → PyValue → Except PyErr (List PyDict)

/-- Observable session events of the Graph Store Client. -/
inductive DbEvent where
  | sessionOpen : Nat → DbEvent
  | run : Nat → String → DbEvent
  | sessionClose : Nat → DbEvent

/-- `Neo4jConnection.run_query` (db_connector.py), instrumented with the
session events its `with self.driver.session() as session:` block performs:
a fresh session `sid` is opened, the query is run on it, and the session is
closed on exit whether `session.run` succeeded or raised (the semantics of the
`with` statement).  With an uninitialized driver (`self.driver is None`) the
method prints a message and returns the empty list without touching the
store, so no session event is emitted. -/
def run_query_ev (driver : Option Neo4jDriver) (sid : Nat) (query : String)
    (parameters : PyValue) : Except PyErr (List PyDict) × List DbEvent :=
  match driver with
  | none => (Except.ok [], [])
  | some d =>
      (d query parameters,
       [DbEvent.sessionOpen sid, DbEvent.run sid query, DbEvent.sessionClose sid])

/-- The value returned (or exception raised) by `run_query`; the session id
does not influence it. -/
def run_query (driver : Option Neo4jDriver) (query : String) (parameters : PyValue) :
    Except PyErr (List PyDict) :=
  (run_query_ev driver 0 query parameters).1

/-- A sequence of `run_query` calls, each receiving the next fresh session id,
with the concatenated event trace. -/
def run_query_seq (driver : Option Neo4jDriver) (sid0 : Nat) :
    List (String × PyValue) → List (Except PyErr (List PyDict)) × List DbEvent
  | [] => ([], [])
  | (q, p) :: rest =>
      let r := run_query_ev driver sid0 q p
      let rs := run_query_seq driver (sid0 + 1) rest
      (r.1 :: rs.1, r.2 ++ rs.2)

/-- The session ids opened in an event trace, in order. -/
def openedSessions : List DbEvent → List Nat
  | [] => []
  | DbEvent.sessionOpen sid :: evs => sid :: openedSessions evs
  | DbEvent.run _ _ :: evs => openedSessions evs
  | DbEvent.sessionClose _ :: evs => openedSessions evs

/-! ## cypher_chain.py: the self-contained schema builder -/

/-- Python `repr` escaping for a string rendered between the given quote
character: backslash and the quote itself are escaped. -/
def pyEscapeIn (quote : Char) (s : String) : String :=
  String.join (s.data.map (fun c =>
    if c = '\\' then "\\\\"
    else if c = quote then "\\" ++ String.mk [c]
    else String.mk [c]))

/-- CPython `repr` of a string: single-quoted, except that a string containing
a single quote and no double quote is double-quoted. -/
def pyReprStr (s : String) : String :=
  if s.data.contains '\x27' && !(s.data.contains '\x22') then
    "\x22" ++ pyEscapeIn '\x22' s ++ "\x22"
  else
    "\x27" ++ pyEscapeIn '\x27' s ++ "\x27"

mutual
/-- Python `repr`, as applied by f-string interpolation of the fetched value
lists (`str` of a list uses `repr` of the elements). -/
def pyRepr : PyValue → String
  | PyValue.vnone => "None"
  | PyValue.vbool true => "True"
  | PyValue.vbool false => "False"
  | PyValue.vint n => toString n
  | PyValue.vstr s => pyReprStr s
  | PyValue.vlist xs => "[" ++ pyReprSeq xs ++ "]"
  | PyValue.vdict kvs => "\x7b" ++ pyReprPairs kvs ++ "\x7d"

/-- Comma-separated `repr` of the elements of a Python list. -/
def pyReprSeq : List PyValue → String
  | [] => ""
  | [x] => pyRepr x
  | x :: y :: xs => pyRepr x ++ ", " ++ pyReprSeq (y :: xs)

/-- Comma-separated `repr` of the entries of a Python dictionary. -/
def pyReprPairs : List (String × PyValue) → String
  | [] => ""
  | [(k, v)] => pyReprStr k ++ ": " ++ pyRepr v
  | (k, v) :: kv :: kvs =>
      pyReprStr k ++ ": " ++ pyRepr v ++ ", " ++ pyReprPairs (kv :: kvs)
end

/-- The introspection query text assembled by `get_distinct_values`. -/
def distinctValuesQuery (node_label property_name : String) : String :=
  "MATCH (n:" ++ node_label ++ ") WHERE n." ++ property_name ++
    " IS NOT NULL RETURN DISTINCT n." ++ property_name ++ " AS values"

/-- The list comprehension `[record["values"] for record in results]`:
subscripting a record without the key raises a `KeyError` at that record. -/
def extractValues : List PyDict → Except PyErr (List PyValue)
  | [] => Except.ok []
  | record :: rest =>
      match PyDict.get? record "values" with
      | none => Except.error "\x27values\x27"
      | some v =>
          match extractValues rest with
          | Except.error e => Except.error e
          | Except.ok vs => Except.ok (v :: vs)

/-- `get_distinct_values` (cypher_chain.py): runs the introspection query
through `db_conn.run_query` (whose driver is the parameter here) and collects
the `values` column; any exception propagates uncaught. -/
def get_distinct_values (driver : Option Neo4jDriver) (node_label property_name : String) :
    Except PyErr (List PyValue) :=
  match run_query driver (distinctValuesQuery node_label property_name) PyValue.vnone with
  | Except.error e => Except.error e
  | Except.ok results => extractValues results

/-- The f-string schema template of `build_enriched_schema` (cypher_chain.py),
with the three fetched value lists interpolated via Python `str`. -/
def schemaText (maintenance_type_values order_status_values fault_category_values :
    List PyValue) : String :=
  "\n# Node Labels and Properties\n(:MaintenanceWorkOrder \x7bwork_order_id: \x27INTEGER\x27, maintenance_type: \x27STRING\x27 /* one of: " ++
  pyRepr (PyValue.vlist maintenance_type_values) ++
  " */, order_status: \x27STRING\x27 /* one of: " ++
  pyRepr (PyValue.vlist order_status_values) ++
  " */, actual_finish_date: \x27DATE\x27\x7d)\n(:Equipment \x7bsap_equipment_number: \x27STRING\x27, sap_equipment_description: \x27STRING\x27\x7d)\n(:MachineDowntimeEvent \x7bevent_start_datetime: \x27DATETIME\x27, downtime_in_minutes: \x27FLOAT\x27\x7d)\n(:Machine \x7bmachine_description: \x27STRING\x27\x7d)\n(:Location \x7blocation_name: \x27STRING\x27\x7d)\n(:MachineFault \x7bfault_description: \x27STRING\x27, fault_category: \x27STRING\x27 /* one of: " ++
  pyRepr (PyValue.vlist fault_category_values) ++
  " */\x7d)\n\n# Relationships\n(:Machine)-[:FALLS_UNDER]->(:Location)\n(:Machine)-[:PROCESS_FLOWS_TO]->(:Machine)\n(:Machine)-[:RECORDED_DOWNTIME_EVENT]->(:MachineDowntimeEvent)\n(:Equipment)-[:MAPS_TO]->(:Machine)\n(:MachineDowntimeEvent)-[:DUE_TO_FAULT]->(:MachineFault)\n(:MaintenanceWorkOrder)-[:PERFORMED_ON_EQUIPMENT]->(:Equipment)\n(:MachineDowntimeEvent)-[:PRECEDES]->(:MachineDowntimeEvent)\n"

/-- `build_enriched_schema` (cypher_chain.py): three introspection calls, in
source order, with no exception handling of its own — an exception raised by
any of them propagates out (and aborts the import of the module). -/
def build_enriched_schema (driver : Option Neo4jDriver) : Except PyErr String :=
  match get_distinct_values driver "MaintenanceWorkOrder" "order_status" with
  | Except.error e => Except.error e
  | Except.ok order_status_values =>
      match get_distinct_values driver "MaintenanceWorkOrder" "maintenance_type" with
      | Except.error e => Except.error e
      | Except.ok maintenance_type_values =>
          match get_distinct_values driver "MachineFault" "fault_category" with
          | Except.error e => Except.error e
          | Except.ok fault_category_values =>
              Except.ok (schemaText maintenance_type_values order_status_values
                fault_category_values)

/-! ## cypher_chain.py: the connector and its `ask` method -/

/-- The deterministic model client settings. -/
structure ChatOpenAI where
  temperature : Int
  model : String

/-- The model client constructed in `Neo4jLLMConnector.__init__`
(cypher_chain.py): `ChatOpenAI` with temperature 0 and model gpt-4o. -/
def connector_llm : ChatOpenAI := ChatOpenAI.mk 0 "gpt-4o"

/-- The body of the `try:` block of `Neo4jLLMConnector.ask` (cypher_chain.py;
graph_chain.py is line-for-line identical here): the chain invocation result
(or the exception it raised) comes in as `invoke`, then
`result.get("intermediate_steps", [{}])[0].get("query", "Query not generated.")`
and `result.get("result", "Could not find an answer.")` are evaluated in that
order, any exception propagating. -/
def askBody (invoke : Except PyErr PyDict) : Except PyErr (PyValue × PyValue) :=
  match invoke with
  | Except.error e => Except.error e
  | Except.ok result =>
      match PyValue.subscriptZero
          (PyDict.getD result "intermediate_steps" (PyValue.vlist [PyValue.vdict []])) with
      | Except.error e => Except.error e
      | Except.ok first =>
          match PyValue.getMethod first "query" (PyValue.vstr "Query not generated.") with
          | Except.error e => Except.error e
          | Except.ok cypher_query =>
              Except.ok (cypher_query,
                PyDict.getD result "result" (PyValue.vstr "Could not find an answer."))

/-- `Neo4jLLMConnector.ask`: the `try/except Exception` wrapper around
`askBody`; a caught exception becomes the pair `("An error occurred", str(e))`.
A `.error` result would mean an exception escaped to the caller. -/
def ask (invoke : Except PyErr PyDict) : Except PyErr (PyValue × PyValue) :=
  match askBody invoke with
  | Except.ok pair => Except.ok pair
  | Except.error e => Except.ok (PyValue.vstr "An error occurred", PyValue.vstr e)

/-- The module-level state of cypher_chain.py relevant to requests: the
`graph_schema` string computed at import time. -/
structure CypherChainModule where
  graph_schema : String

/-- Module load of cypher_chain.py: `graph_schema = build_enriched_schema()`
runs exactly once, at import time; an introspection failure propagates out of
the import. -/
def loadModule (driver : Option Neo4jDriver) : Except PyErr CypherChainModule :=
  match build_enriched_schema driver with
  | Except.error e => Except.error e
  | Except.ok s => Except.ok (CypherChainModule.mk s)

/-- One `ask` request against the loaded module: the chain invocation reads
the cached schema (recorded as the middle component of the result); the body
of `ask` contains no assignment to `graph_schema`, so the module state after
the call is the state before it. -/
def askWithSchema (m : CypherChainModule) (invoke : String → Except PyErr PyDict) :
    CypherChainModule × String × Except PyErr (PyValue × PyValue) :=
  (m, m.graph_schema, ask (invoke m.graph_schema))

/-- A whole process life of requests: each `ask` call runs against the state
left by the previous one, and the schema string each invocation observed is
collected. -/
def runAsks (m : CypherChainModule) :
    List (String → Except PyErr PyDict) → CypherChainModule × List String
  | [] => (m, [])
  | f :: fs =>
      let step := askWithSchema m f
      let rest := runAsks step.1 fs
      (rest.1, step.2.1 :: rest.2)

/-- `CYPHER_GENERATION_TEMPLATE` (cypher_chain.py) filled at its three slots
(schema, examples, question), as `PromptTemplate` formatting does. -/
def CYPHER_GENERATION_TEMPLATE (schema examples question : String) : String :=
  "You are an expert Neo4j Cypher query developer. Your ONLY task is to write a single, syntactically correct Cypher query to answer the user\x27s question. DO NOT add any text before or after the query.\n\nYou must follow these strict rules:\n1.  **Use ONLY the nodes, relationships, and properties provided in the Schema.**\n2.  **Follow the graph structure.** Do not create paths that do not exist.\n3.  **Handle DATE to DATETIME conversion.** Properties of type \x60DATE\x60 (like \x60actual_finish_date\x60) MUST be converted to a \x60DATETIME\x60 using \x60datetime()\x60 before you can add a \x60duration\x60 to them. For example: \x60datetime(wo.actual_finish_date) + duration(\x7bdays: 7\x7d)\x60.\n4.  **To correlate maintenance with downtime**, use the path: \x60(:MaintenanceWorkOrder)-[:PERFORMED_ON_EQUIPMENT]->(:Equipment)-[:MAPS_TO]->(:Machine)-[:RECORDED_DOWNTIME_EVENT]->(:MachineDowntimeEvent)\x60.\n5.  **Use provided values.** When a property has a comment listing possible values, you MUST use those values.\n6.  **Count events, not nodes.** To find the \"frequency\" of a fault, you MUST count \x60MachineDowntimeEvent\x60 nodes.\n7.  **Always return properties.** Do not return entire nodes.\n\nSchema:\n" ++
  schema ++
  "\n---\nHere are some examples of questions and their correct Cypher queries:\n" ++
  examples ++
  "\n---\nThe question is:\n" ++
  question ++ "\n"

/-- Modelled from the spec: the Query Generator step of the external
`GraphCypherQAChain` dependency (not under src/).  Per the specification it
assembles the prompt from the template, schema, examples and question and
submits it to the language model configured for deterministic output; the
model oracle `llm` maps a prompt to the generated query text.  src/ supplies
the template (`CYPHER_GENERATION_TEMPLATE`) and the model configuration
(`connector_llm`). -/
def generateQuery (llm : String → String) (schema examples question : String) : String :=
  llm (CYPHER_GENERATION_TEMPLATE schema examples question)

/-- Outcome of the generation step for one request. -/
inductive GenOutcome where
  | parsed : String → GenOutcome
  | unparseable : PyErr → GenOutcome

/-- Modelled from the spec: the per-request behaviour of the external chain
invoked by `ask` (`GraphCypherQAChain`, not under src/).  Per the
specification the Query Generator fails with a GenerationError when no
parseable query is present, in which case nothing reaches the store;
otherwise the generated query is executed by the Graph Store Client and the
chain returns the result dictionary with the query recorded under
`intermediate_steps`.  The second component lists the query texts actually
executed against the store. -/
def chainInvoke (gen : GenOutcome) (exec : String → Except PyErr PyValue) :
    Except PyErr PyDict × List String :=
  match gen with
  | GenOutcome.unparseable msg => (Except.error msg, [])
  | GenOutcome.parsed q =>
      match exec q with
      | Except.error e => (Except.error e, [q])
      | Except.ok rows =>
          (Except.ok [("intermediate_steps",
              PyValue.vlist [PyValue.vdict [("query", PyValue.vstr q)]]),
            ("result", rows)], [q])

/-- `ask` applied to the modelled chain, keeping the executed-query log. -/
def askPipeline (gen : GenOutcome) (exec : String → Except PyErr PyValue) :
    Except PyErr (PyValue × PyValue) × List String :=
  (ask (chainInvoke gen exec).1, (chainInvoke gen exec).2)

/-! ## app.py: startup and the `/ask` route -/

/-- What the route needs of the connector object: its `ask` method, a function
from the question value to the returned pair (or an escaped exception). -/
abbrev Connector := PyValue → Except PyErr (PyValue × PyValue)

/-- The `try/except` around `connector = Neo4jLLMConnector()` (app.py lines
11-17) in isolation: a failing construction is caught, a FATAL message is
printed, and `connector` is left as `None`.  This handler covers only the
construction — the `from cypher_chain import Neo4jLLMConnector` at line 2 has
already run before it, outside any handler; `appStartup` composes the two
phases.  A `.error` result would mean an exception escaped and aborted
startup. -/
def startupConnector (init : Except PyErr Connector) : Except PyErr (Option Connector) :=
  match init with
  | Except.ok c => Except.ok (some c)
  | Except.error _ => Except.ok none

/-- Whether the startup outcome aborted the process. -/
def aborts (r : Except PyErr (Option Connector)) : Bool :=
  match r with
  | Except.error _ => true
  | Except.ok _ => false

/-- Process startup of app.py: line 2 imports cypher_chain, which runs
`build_enriched_schema` at import time with no exception handler around it —
a failure there escapes and aborts the process before any route exists; only
then do lines 11-17 construct the connector inside their `try/except`.
`mkConn` is the construction `Neo4jLLMConnector()` performed against the
loaded module. -/
def appStartup (driver : Option Neo4jDriver)
    (mkConn : CypherChainModule → Except PyErr Connector) :
    Except PyErr (Option Connector) :=
  match loadModule driver with
  | Except.error e => Except.error e
  | Except.ok m => startupConnector (mkConn m)

/-- An HTTP response: the JSON object of the body and the status code. -/
structure HttpResponse where
  body : PyDict
  status : Nat

/-- The Flask `/ask` POST handler (app.py): a 500 error JSON when the
connector is missing, a 400 error JSON when the question is absent or falsy,
otherwise the connector pair as `cypher_query`/`final_answer` JSON — with a
500 error JSON if `connector.ask` itself raised. -/
def askRoute (connector : Option Connector) (body : PyDict) : HttpResponse :=
  match connector with
  | none =>
      HttpResponse.mk
        [("error", PyValue.vstr "The application is not initialized correctly. Check the server logs.")] 500
  | some conn =>
      let question := PyDict.getD body "question" PyValue.vnone
      if PyValue.isTruthy question then
        match conn question with
        | Except.ok qa =>
            HttpResponse.mk [("cypher_query", qa.1), ("final_answer", qa.2)] 200
        | Except.error _ =>
            HttpResponse.mk
              [("error", PyValue.vstr "An internal error occurred while processing the question.")] 500
      else
        HttpResponse.mk [("error", PyValue.vstr "No question provided")] 400

/-! ## Helper lemmas -/

theorem openedSessions_append (evs1 evs2 : List DbEvent) :
    openedSessions (evs1 ++ evs2) = openedSessions evs1 ++ openedSessions evs2 := by
  induction evs1 with
  | nil => rfl
  | cons ev evs ih => cases ev <;> simp [openedSessions, ih]

theorem openedSessions_seq (d : Neo4jDriver) (sid0 : Nat) (qs : List (String × PyValue)) :
    openedSessions (run_query_seq (some d) sid0 qs).2 = List.range' sid0 qs.length := by
  induction qs generalizing sid0 with
  | nil => rfl
  | cons qp rest ih =>
      obtain ⟨q, p⟩ := qp
      show openedSessions
          ([DbEvent.sessionOpen sid0, DbEvent.run sid0 q, DbEvent.sessionClose sid0] ++
            (run_query_seq (some d) (sid0 + 1) rest).2) = _
      rw [openedSessions_append, ih]
      simp [openedSessions, List.range'_succ]

theorem build_enriched_schema_first_error (d : Neo4jDriver) (e : PyErr)
    (h : d (distinctValuesQuery "MaintenanceWorkOrder" "order_status") PyValue.vnone =
      Except.error e) :
    build_enriched_schema (some d) = Except.error e := by
  have h1 : run_query (some d) (distinctValuesQuery "MaintenanceWorkOrder" "order_status")
      PyValue.vnone = Except.error e := h
  have hg : get_distinct_values (some d) "MaintenanceWorkOrder" "order_status" =
      Except.error e := by
    unfold get_distinct_values
    rw [h1]
  unfold build_enriched_schema
  rw [hg]

theorem loadModule_first_error (d : Neo4jDriver) (e : PyErr)
    (h : d (distinctValuesQuery "MaintenanceWorkOrder" "order_status") PyValue.vnone =
      Except.error e) :
    loadModule (some d) = Except.error e := by
  unfold loadModule
  rw [build_enriched_schema_first_error d e h]

/-! ## Claim theorems -/

/-- C1: `Neo4jLLMConnector.ask` never propagates an exception to its caller:
whatever the chain invocation does — return any result dictionary, or raise
any exception during generation, execution or formatting — `ask` returns an
ordinary (query text, answer) pair. -/
theorem C1_ask_never_raises (invoke : Except PyErr PyDict) :
    ∃ q a, ask invoke = Except.ok (q, a) := by
  unfold ask
  cases h : askBody invoke with
  | ok p => exact ⟨p.1, p.2, by simp⟩
  | error e => exact ⟨_, _, rfl⟩

/-- C2: when the Query Generator yields no parseable query text, `ask` does
not raise and nothing is executed against the store; `ask` returns the fixed
non-query sentinel `"An error occurred"` together with the failure
description as the answer. -/
theorem C2_generation_failure_sentinel (msg : PyErr) (exec : String → Except PyErr PyValue) :
    askPipeline (GenOutcome.unparseable msg) exec =
      (Except.ok (PyValue.vstr "An error occurred", PyValue.vstr msg), []) := rfl

/-- C3: a connection error at startup is fatal to the whole process.  With
the driver constructed but the store unreachable or the credentials rejected,
the first store contact is the schema introspection run by the import of
cypher_chain at app.py line 2, outside any handler: the exception escapes, startup
aborts, no connector state is ever produced, and hence no request handling
proceeds.  And only initialization-time errors can abort: every per-request
error is caught inside `ask` and becomes an ordinary pair. -/
theorem C3_startup_fatal (d : Neo4jDriver) (e : PyErr)
    (mkConn : CypherChainModule → Except PyErr Connector)
    (h : d (distinctValuesQuery "MaintenanceWorkOrder" "order_status") PyValue.vnone =
      Except.error e) :
    aborts (appStartup (some d) mkConn) = true ∧
    (∀ oc, appStartup (some d) mkConn ≠ Except.ok oc) ∧
    (∀ invoke, ∃ p, ask invoke = Except.ok p) := by
  have hl := loadModule_first_error d e h
  have hs : appStartup (some d) mkConn = Except.error e := by
    unfold appStartup
    rw [hl]
  refine ⟨by rw [hs]; rfl, fun oc hcontra => ?_, fun invoke => ?_⟩
  · rw [hs] at hcontra
    exact Except.noConfusion hcontra
  · unfold ask
    cases hb : askBody invoke with
    | ok p => exact ⟨p, by simp⟩
    | error e2 => exact ⟨_, rfl⟩

/-- Witness for C3 with a concrete unreachable-store driver. -/
theorem C3_startup_fatal_witness :
    aborts (appStartup (some (fun _ _ => Except.error "ServiceUnavailable: could not connect"))
      (fun _ => Except.error "never reached")) = true :=
  (C3_startup_fatal (fun _ _ => Except.error "ServiceUnavailable: could not connect")
    "ServiceUnavailable: could not connect" (fun _ => Except.error "never reached") rfl).1

/-- C4 counterexample: with an uninitialized driver, `run_query` returns the
success value `[]` although the query was never executed — the event trace is
empty, no session was opened and nothing ran against the store. -/
theorem C4_counterexample :
    run_query_ev none 0 "MATCH (n) RETURN count(n)" PyValue.vnone = (Except.ok [], []) ∧
    run_query none "MATCH (n) RETURN count(n)" PyValue.vnone = Except.ok [] :=
  ⟨rfl, rfl⟩

/-- C4 amended: with an initialized driver, `run_query` surfaces the store
outcome unchanged — the rows on success, the error on failure, never
swallowed — and the query is actually run; with an uninitialized driver it
silently returns the empty list without executing anything. -/
theorem C4_amended_surfacing (d : Neo4jDriver) (sid : Nat) (q : String) (p : PyValue) :
    run_query_ev (some d) sid q p =
      (d q p, [DbEvent.sessionOpen sid, DbEvent.run sid q, DbEvent.sessionClose sid]) ∧
    run_query_ev none sid q p = (Except.ok [], []) :=
  ⟨rfl, rfl⟩

/-- C5 counterexample: when an introspection query fails, the schema builder
does not produce a partial or fallback schema — it fails with the same
error. -/
theorem C5_counterexample :
    build_enriched_schema
        (some (fun _ _ => Except.error "Neo.ClientError.Statement.SyntaxError")) =
      Except.error "Neo.ClientError.Statement.SyntaxError" := rfl

/-- C5 amended: a failing introspection query makes `build_enriched_schema`
propagate the error instead of degrading to a partial or fallback schema;
since it runs at the import of cypher_chain, outside any handler, the same
error escapes `loadModule` and aborts process startup.  The only degraded
mode is an uninitialized driver, where the queries silently return empty
lists and a schema with empty value enumerations is produced. -/
theorem C5_amended_propagates (d : Neo4jDriver) (e : PyErr)
    (h : d (distinctValuesQuery "MaintenanceWorkOrder" "order_status") PyValue.vnone =
      Except.error e) :
    build_enriched_schema (some d) = Except.error e ∧
    loadModule (some d) = Except.error e ∧
    (∀ mkConn, appStartup (some d) mkConn = Except.error e) ∧
    build_enriched_schema none = Except.ok (schemaText [] [] []) := by
  have hb := build_enriched_schema_first_error d e h
  have hl := loadModule_first_error d e h
  refine ⟨hb, hl, fun mkConn => ?_, rfl⟩
  unfold appStartup
  rw [hl]

/-- Witness for C5 amended. -/
theorem C5_amended_witness :
    build_enriched_schema (some (fun _ _ => Except.error "boom")) = Except.error "boom" ∧
    build_enriched_schema none = Except.ok (schemaText [] [] []) :=
  ⟨(C5_amended_propagates (fun _ _ => Except.error "boom") "boom" rfl).1,
   (C5_amended_propagates (fun _ _ => Except.error "boom") "boom" rfl).2.2.2⟩

/-- C6: the schema is computed once at module load and no `ask` call mutates
or rebuilds it: over any sequence of requests, the module state at the end is
the state after load, and every invocation observed exactly the loaded schema
string. -/
theorem C6_schema_constant (m : CypherChainModule)
    (invokes : List (String → Except PyErr PyDict)) :
    runAsks m invokes = (m, invokes.map (fun _ => m.graph_schema)) := by
  induction invokes with
  | nil => rfl
  | cons f fs ih => simp [runAsks, askWithSchema, ih]

/-- C7: every response of the `/ask` route is a JSON object carrying either
both `cypher_query` and `final_answer` or an `error` field; and a request
without a question is answered with an error object, never a query result. -/
theorem C7_route_shape (conn : Option Connector) (body : PyDict) :
    (((PyDict.get? (askRoute conn body).body "cypher_query").isSome ∧
      (PyDict.get? (askRoute conn body).body "final_answer").isSome) ∨
      (PyDict.get? (askRoute conn body).body "error").isSome) ∧
    (PyDict.get? body "question" = none →
      (PyDict.get? (askRoute conn body).body "error").isSome ∧
      PyDict.get? (askRoute conn body).body "cypher_query" = none) := by
  cases conn with
  | none => exact ⟨Or.inr (by simp [askRoute, PyDict.get?]), fun _ => ⟨by simp [askRoute, PyDict.get?], by simp [askRoute, PyDict.get?]⟩⟩
  | some c =>
      by_cases hq : PyValue.isTruthy (PyDict.getD body "question" PyValue.vnone)
      · cases hr : c (PyDict.getD body "question" PyValue.vnone) with
        | ok qa =>
            refine ⟨Or.inl ⟨?_, ?_⟩, fun habs => ?_⟩
            · simp [askRoute, hq, hr, PyDict.get?]
            · simp [askRoute, hq, hr, PyDict.get?]
            · exfalso
              rw [PyDict.getD, habs] at hq
              simp [PyValue.isTruthy] at hq
        | error e =>
            refine ⟨Or.inr ?_, fun habs => ?_⟩
            · simp [askRoute, hq, hr, PyDict.get?]
            · exfalso
              rw [PyDict.getD, habs] at hq
              simp [PyValue.isTruthy] at hq
      · refine ⟨Or.inr ?_, fun _ => ⟨?_, ?_⟩⟩ <;>
          simp [askRoute, hq, PyDict.get?]

/-- Witness for C7 at a concrete request with no question. -/
theorem C7_route_shape_witness :
    (PyDict.get? (askRoute none []).body "error").isSome ∧
    PyDict.get? (askRoute none []).body "cypher_query" = none :=
  (C7_route_shape none []).2 rfl

/-- C8: under the zero-temperature configuration taken from the source and
the determinism precondition (two runs of the model agree on the assembled
prompt), two invocations with the identical question, schema and examples
produce the same generated query text. -/
theorem C8_two_run_determinism (llm1 llm2 : String → String)
    (schema examples question : String)
    (h : llm1 (CYPHER_GENERATION_TEMPLATE schema examples question) =
      llm2 (CYPHER_GENERATION_TEMPLATE schema examples question)) :
    connector_llm.temperature = 0 ∧
    generateQuery llm1 schema examples question =
      generateQuery llm2 schema examples question :=
  ⟨rfl, h⟩

/-- Witness for C8 with a concrete deterministic oracle. -/
theorem C8_witness :
    connector_llm.temperature = 0 ∧
    generateQuery (fun p => p) "s" "e" "q" = generateQuery (fun p => p) "s" "e" "q" :=
  C8_two_run_determinism (fun p => p) (fun p => p) "s" "e" "q" rfl

/-- C9 counterexample: a `run_query` call with the uninitialized driver opens
no database session at all — its event trace is empty — while still
returning, so it is not the case that every call to `run_query` opens its own
session. -/
theorem C9_counterexample :
    (run_query_ev none 0 "MATCH (m:Machine) RETURN m.machine_description"
      PyValue.vnone).2 = [] ∧
    openedSessions (run_query_ev none 0 "MATCH (m:Machine) RETURN m.machine_description"
      PyValue.vnone).2 = [] ∧
    (run_query_ev none 0 "MATCH (m:Machine) RETURN m.machine_description"
      PyValue.vnone).1 = Except.ok [] :=
  ⟨rfl, rfl, rfl⟩

/-- C9 amended: every `run_query` call with an initialized driver opens
exactly one fresh session of its own and closes it on exit — the trace is
open/run/close whatever the driver outcome, success and failure alike — and
across a sequence of calls the opened sessions are pairwise distinct, so no
session state is shared between calls; a call with an uninitialized driver
opens no session at all. -/
theorem C9_session_per_call (d : Neo4jDriver) (sid : Nat) (q : String) (p : PyValue)
    (sid0 : Nat) (qs : List (String × PyValue)) :
    (run_query_ev (some d) sid q p).2 =
      [DbEvent.sessionOpen sid, DbEvent.run sid q, DbEvent.sessionClose sid] ∧
    (openedSessions (run_query_seq (some d) sid0 qs).2).Nodup ∧
    (run_query_ev none sid q p).2 = [] := by
  refine ⟨rfl, ?_, rfl⟩
  rw [openedSessions_seq]
  exact List.nodup_range' _ _

/-- C10 counterexample: on the chain result `{"intermediate_steps": []}` the
`result` key is absent, yet the answer is not "Could not find an answer." —
the subscription `[0]` raises an IndexError that the `except` turns into
`("An error occurred", "list index out of range")`. -/
theorem C10_counterexample :
    PyDict.get? [("intermediate_steps", PyValue.vlist [])] "result" = none ∧
    ask (Except.ok [("intermediate_steps", PyValue.vlist [])]) =
      Except.ok (PyValue.vstr "An error occurred",
        PyValue.vstr "list index out of range") ∧
    "list index out of range" ≠ "Could not find an answer." :=
  ⟨rfl, rfl, by decide⟩

/-- C10 amended: if `intermediate_steps` is absent the query text is exactly
"Query not generated." (the answer then being the `result` value or its
default); if additionally `result` is absent the answer is exactly "Could not
find an answer."; and if `intermediate_steps` is present but an empty list,
`ask` returns `("An error occurred", <error text>)` instead of raising. -/
theorem C10_defaults (d : PyDict) :
    (PyDict.get? d "intermediate_steps" = none →
      ask (Except.ok d) = Except.ok (PyValue.vstr "Query not generated.",
        PyDict.getD d "result" (PyValue.vstr "Could not find an answer."))) ∧
    (PyDict.get? d "intermediate_steps" = none → PyDict.get? d "result" = none →
      ask (Except.ok d) = Except.ok (PyValue.vstr "Query not generated.",
        PyValue.vstr "Could not find an answer.")) ∧
    (PyDict.get? d "intermediate_steps" = some (PyValue.vlist []) →
      ask (Except.ok d) = Except.ok (PyValue.vstr "An error occurred",
        PyValue.vstr "list index out of range")) := by
  refine ⟨fun h1 => ?_, fun h1 h2 => ?_, fun h1 => ?_⟩
  · simp only [PyDict.get?] at h1
    simp [ask, askBody, PyDict.getD, PyDict.get?, h1, PyValue.subscriptZero,
      PyValue.getMethod]
  · simp only [PyDict.get?] at h1 h2
    simp [ask, askBody, PyDict.getD, PyDict.get?, h1, h2, PyValue.subscriptZero,
      PyValue.getMethod]
  · simp only [PyDict.get?] at h1
    simp [ask, askBody, PyDict.getD, PyDict.get?, h1, PyValue.subscriptZero]

/-- Witness for C10 amended, at the empty dictionary and at
`{"intermediate_steps": []}`. -/
theorem C10_defaults_witness :
    ask (Except.ok []) = Except.ok (PyValue.vstr "Query not generated.",
      PyValue.vstr "Could not find an answer.") ∧
    ask (Except.ok [("intermediate_steps", PyValue.vlist [])]) =
      Except.ok (PyValue.vstr "An error occurred",
        PyValue.vstr "list index out of range") :=
  ⟨(C10_defaults []).2.1 rfl rfl,
   (C10_defaults [("intermediate_steps", PyValue.vlist [])]).2.2 rfl⟩

end NeoApp
